import Mathlib

/-!
Verification of the Firebase user-management console core
(firebase_service.py and cli_interface.py) against its specification.

The embedding is shallow: the provider SDK and the REST endpoint are
modelled as explicit inputs (page lists, lookup responses, HTTP responses),
and each Python method becomes a Lean function over those inputs.
-/

namespace FirebaseApp

/-- Lowercasing as Python's str.lower performs it on ASCII data:
every character is lowercased independently. -/
def pyLower (s : String) : String := ⟨s.data.map Char.toLower⟩

/-- Substring search on character lists: Python's `needle in hay`. -/
def pyInAux (needle : List Char) : List Char → Bool
  | [] => needle.isEmpty
  | c :: t => needle.isPrefixOf (c :: t) || pyInAux needle t

/-- Python's `needle in hay` on strings. -/
def pyIn (needle hay : String) : Bool := pyInAux needle.data hay.data

/-- Test rendering Python's `not s.strip()`: true iff every character of
`s` is whitespace (in particular true for the empty string). -/
def pyStripEmpty (s : String) : Bool := s.data.all Char.isWhitespace

/-- Python's `v or d` for an optional string field: absent (`None`) and
the empty string are both falsy and replaced by the default. -/
def pyOr (v : Option String) (d : String) : String :=
  match v with
  | none => d
  | some s => if s = "" then d else s

/-- Raw user record as delivered by the provider SDK: email and display
name may be absent. -/
structure RawUser where
  uid : String
  email : Option String
  display_name : Option String
  email_verified : Bool
  disabled : Bool
  creation_time : Nat
  last_sign_in : Option Nat
deriving DecidableEq

/-- Normalized user record as cached by the application (the dict built
in get_all_users and get_user_by_uid). -/
structure UserRecord where
  uid : String
  email : String
  display_name : String
  email_verified : Bool
  disabled : Bool
  creation_time : Nat
  last_sign_in : Option Nat
deriving DecidableEq

/-- Field normalization applied to every fetched user:
`user.email or 'No email'` and `user.display_name or 'No name'`. -/
def normalizeUser (u : RawUser) : UserRecord :=
  ⟨u.uid, pyOr u.email "No email", pyOr u.display_name "No name",
   u.email_verified, u.disabled, u.creation_time, u.last_sign_in⟩

/-- Pagination loop of get_all_users: each element of the page list is
one page request, which either yields a page of raw users or raises.
The accumulator is the `users` list being built. -/
def getAllUsersLoop : List (Except String (List RawUser)) → List UserRecord →
    Except String (List UserRecord)
  | [], acc => Except.ok acc
  | Except.error e :: _, _ => Except.error ("Failed to retrieve users: " ++ e)
  | Except.ok page :: rest, acc => getAllUsersLoop rest (acc ++ page.map normalizeUser)

/-- get_all_users from firebase_service.py: drains the provider's pages,
normalizing every record; any page error aborts the whole call. -/
def get_all_users (pages : List (Except String (List RawUser))) :
    Except String (List UserRecord) :=
  getAllUsersLoop pages []

/-- Accumulation loop of search_users over the user list. -/
def searchLoop (queryLower : String) : List UserRecord → List UserRecord
  | [] => []
  | u :: rest =>
    let emailMatch := pyIn queryLower (pyLower u.email)
    let nameMatch := pyIn queryLower (pyLower u.display_name)
    if emailMatch || nameMatch then u :: searchLoop queryLower rest
    else searchLoop queryLower rest

/-- search_users from firebase_service.py: blank query returns the input
unchanged, otherwise case-insensitive substring match on email or
display name. -/
def search_users (query : String) (users : List UserRecord) : List UserRecord :=
  if pyStripEmpty query then users
  else searchLoop (pyLower query) users

/-- Failure modes a provider point lookup can raise. -/
inductive LookupError where
  | userNotFound
  | transportError (msg : String)
deriving DecidableEq

/-- get_user_by_uid from firebase_service.py: the whole body is wrapped
in `try ... except Exception: return None`, so every provider failure
becomes `None`. -/
def get_user_by_uid (resp : Except LookupError RawUser) : Option UserRecord :=
  match resp with
  | Except.error _ => none
  | Except.ok u => some (normalizeUser u)

theorem getAllUsersLoop_ok (pgs : List (List RawUser)) (acc : List UserRecord) :
    getAllUsersLoop (pgs.map Except.ok) acc =
      Except.ok (acc ++ (pgs.flatten).map normalizeUser) := by
  induction pgs generalizing acc with
  | nil => simp [getAllUsersLoop]
  | cons p rest ih =>
    simp [getAllUsersLoop, ih, List.map_append, List.append_assoc]

theorem getAllUsersLoop_err (okpgs : List (List RawUser)) (e : String)
    (rest : List (Except String (List RawUser))) (acc : List UserRecord) :
    getAllUsersLoop (okpgs.map Except.ok ++ Except.error e :: rest) acc =
      Except.error ("Failed to retrieve users: " ++ e) := by
  induction okpgs generalizing acc with
  | nil => simp [getAllUsersLoop]
  | cons p ps ih => simp [getAllUsersLoop, ih]

/-- C2: get_all_users drains the pagination to exhaustion and returns the
concatenation of the (normalized) pages in page order; if any page
request errors, the whole call fails and no records at all are returned,
whatever pages had already been fetched. -/
theorem get_all_users_pagination :
    (∀ pgs : List (List RawUser),
      get_all_users (pgs.map Except.ok) =
        Except.ok ((pgs.flatten).map normalizeUser)) ∧
    (∀ (okpgs : List (List RawUser)) (e : String)
        (rest : List (Except String (List RawUser))),
      get_all_users (okpgs.map Except.ok ++ Except.error e :: rest) =
        Except.error ("Failed to retrieve users: " ++ e)) := by
  constructor
  · intro pgs
    simpa using getAllUsersLoop_ok pgs []
  · intro okpgs e rest
    simpa using getAllUsersLoop_err okpgs e rest []

theorem searchLoop_eq_filter (ql : String) (users : List UserRecord) :
    searchLoop ql users =
      users.filter (fun u => pyIn ql (pyLower u.email) || pyIn ql (pyLower u.display_name)) := by
  induction users with
  | nil => rfl
  | cons u rest ih =>
    simp [searchLoop, List.filter_cons, ih]

/-- C5: for a query that is not blank, search_users returns exactly the
records whose lowercased email or lowercased display name contains the
lowercased query as a substring, in input order (a stable filter). -/
theorem search_users_filter_semantics (query : String) (users : List UserRecord)
    (hq : pyStripEmpty query = false) :
    search_users query users =
      users.filter (fun u =>
        pyIn (pyLower query) (pyLower u.email) ||
        pyIn (pyLower query) (pyLower u.display_name)) := by
  simp [search_users, hq, searchLoop_eq_filter]

def alice : UserRecord := ⟨"uid-1", "alice@x.com", "Alice", true, false, 10, some 20⟩

def bob : UserRecord := ⟨"uid-2", "bob@y.org", "Bob", false, false, 11, none⟩

/-- Witness for C5 at a concrete query and user list. -/
theorem search_users_filter_semantics_witness :
    pyStripEmpty "x.com" = false ∧
    search_users "x.com" [alice, bob] =
      [alice, bob].filter (fun u =>
        pyIn (pyLower "x.com") (pyLower u.email) ||
        pyIn (pyLower "x.com") (pyLower u.display_name)) :=
  ⟨by decide, search_users_filter_semantics "x.com" [alice, bob] (by decide)⟩

/-- C6: a blank (empty or whitespace-only) query leaves the user list
unchanged: search_users is the identity there. -/
theorem search_users_blank_identity (query : String) (users : List UserRecord)
    (hq : pyStripEmpty query = true) :
    search_users query users = users := by
  simp [search_users, hq]

/-- Witness for C6 at a whitespace-only query. -/
theorem search_users_blank_identity_witness :
    pyStripEmpty "   " = true ∧ search_users "   " [alice, bob] = [alice, bob] :=
  ⟨by decide, search_users_blank_identity "   " [alice, bob] (by decide)⟩

/-- C4 counterexample: a not-found report and a transport error produce
the identical observable result `none`, so the caller cannot distinguish
the two failure modes of get_user_by_uid. -/
theorem get_user_by_uid_collapses_failures :
    get_user_by_uid (Except.error LookupError.userNotFound) =
      get_user_by_uid (Except.error (LookupError.transportError "connection refused")) ∧
    get_user_by_uid (Except.error LookupError.userNotFound) = none :=
  ⟨rfl, rfl⟩

/-- C4 amended: get_user_by_uid returns the normalized record on success
and `none` on every failure, collapsing not-found and transport errors
into the same outcome. -/
theorem get_user_by_uid_amended :
    (∀ u : RawUser, get_user_by_uid (Except.ok u) = some (normalizeUser u)) ∧
    (∀ e : LookupError, get_user_by_uid (Except.error e) = none) :=
  ⟨fun _ => rfl, fun _ => rfl⟩

/-- Parsed JSON body of a REST identity-endpoint response, together with
its HTTP status: the `idToken` field and the `error.message` field may
each be absent. -/
structure HttpResponse where
  status : Nat
  idToken : Option String
  errorMessage : Option String
deriving DecidableEq

/-- generate_custom_token from firebase_service.py: the SDK mint either
yields a token string or raises. -/
def generate_custom_token (mint : Except String String) :
    Bool × Option String × Option String :=
  match mint with
  | Except.ok tok => (true, some tok, none)
  | Except.error e => (false, none, some ("Failed to generate custom token: " ++ e))

/-- exchange_custom_token_for_id_token from firebase_service.py: checks
the project id, then POSTs to the custom-token sign-in endpoint; a raised
exception (network, JSON decode) is the `Except.error` case. -/
def exchange_custom_token_for_id_token (projectId : Option String)
    (resp : Except String HttpResponse) : Bool × Option String × Option String :=
  match projectId with
  | none => (false, none, some "Could not determine Firebase project ID")
  | some _ =>
    match resp with
    | Except.error e => (false, none, some ("Token exchange failed: " ++ e))
    | Except.ok r =>
      if r.status = 200 then (true, r.idToken, none)
      else (false, none, some (r.errorMessage.getD "Unknown error"))

/-- test_login_with_api_key from firebase_service.py: same REST shape
against the password sign-in endpoint. -/
def test_login_with_api_key (projectId : Option String)
    (resp : Except String HttpResponse) : Bool × Option String × Option String :=
  match projectId with
  | none => (false, none, some "Could not determine Firebase project ID")
  | some _ =>
    match resp with
    | Except.error e => (false, none, some ("Login test failed: " ++ e))
    | Except.ok r =>
      if r.status = 200 then (true, r.idToken, none)
      else (false, none, some (r.errorMessage.getD "Unknown error"))

/-- Exactly one of the token value and the error message is populated. -/
def exclusiveResult (r : Bool × Option String × Option String) : Prop :=
  (r.2.1 ≠ none ∧ r.2.2 = none) ∨ (r.2.1 = none ∧ r.2.2 ≠ none)

/-- C1 counterexample: on an HTTP 200 response whose body carries no
idToken field, the password-grant sign-in reports success with neither a
token value nor an error message populated. -/
theorem token_result_exclusivity_cex :
    test_login_with_api_key (some "proj") (Except.ok ⟨200, none, none⟩) =
      (true, none, none) ∧
    ¬ exclusiveResult (true, (none : Option String), (none : Option String)) := by
  refine ⟨rfl, ?_⟩
  simp [exclusiveResult]

/-- C1 amended: custom-token minting always populates exactly one of
value and error; the two REST issuance calls populate exactly one except
when the provider answers HTTP 200 without an idToken field, in which
case they report success with neither populated. -/
theorem token_result_exclusivity_amended :
    (∀ mint : Except String String, exclusiveResult (generate_custom_token mint)) ∧
    (∀ (pid : Option String) (resp : Except String HttpResponse),
      exclusiveResult (test_login_with_api_key pid resp) ∨
        (∃ r : HttpResponse, resp = Except.ok r ∧ r.status = 200 ∧ r.idToken = none ∧
          test_login_with_api_key pid resp = (true, none, none))) ∧
    (∀ (pid : Option String) (resp : Except String HttpResponse),
      exclusiveResult (exchange_custom_token_for_id_token pid resp) ∨
        (∃ r : HttpResponse, resp = Except.ok r ∧ r.status = 200 ∧ r.idToken = none ∧
          exchange_custom_token_for_id_token pid resp = (true, none, none))) := by
  refine ⟨?_, ?_, ?_⟩
  · intro mint
    cases mint <;> simp [generate_custom_token, exclusiveResult]
  · intro pid resp
    cases pid with
    | none => left; simp [test_login_with_api_key, exclusiveResult]
    | some p =>
      cases resp with
      | error e => left; simp [test_login_with_api_key, exclusiveResult]
      | ok r =>
        by_cases h200 : r.status = 200
        · cases hid : r.idToken with
          | none =>
            right
            exact ⟨r, rfl, h200, hid, by simp [test_login_with_api_key, h200, hid]⟩
          | some t =>
            left
            simp [test_login_with_api_key, h200, hid, exclusiveResult]
        · left
          simp [test_login_with_api_key, h200, exclusiveResult]
  · intro pid resp
    cases pid with
    | none => left; simp [exchange_custom_token_for_id_token, exclusiveResult]
    | some p =>
      cases resp with
      | error e => left; simp [exchange_custom_token_for_id_token, exclusiveResult]
      | ok r =>
        by_cases h200 : r.status = 200
        · cases hid : r.idToken with
          | none =>
            right
            exact ⟨r, rfl, h200, hid, by simp [exchange_custom_token_for_id_token, h200, hid]⟩
          | some t =>
            left
            simp [exchange_custom_token_for_id_token, h200, hid, exclusiveResult]
        · left
          simp [exchange_custom_token_for_id_token, h200, exclusiveResult]

/-- Session state held by the CLI: the cached user list and the derived
filtered view. -/
structure SessionState where
  allUsers : List UserRecord
  filteredUsers : List UserRecord
deriving DecidableEq

/-- load_users from cli_interface.py: on a successful fetch both lists
are replaced with the fetched sequence; on a failed fetch both are
cleared and the error message is surfaced. The prior state is never
consulted. -/
def load_users (_prior : SessionState) (fetch : Except String (List UserRecord)) :
    SessionState × Option String :=
  match fetch with
  | Except.ok us => (⟨us, us⟩, none)
  | Except.error e => (⟨[], []⟩, some e)

/-- C7: for every prior session state, a successful load replaces
allUsers with the fetched sequence and resets filteredUsers to equal it,
and a failed load clears both lists to empty (discarding the prior
cache) and surfaces the error. -/
theorem load_users_replaces_or_clears :
    (∀ (prior : SessionState) (us : List UserRecord),
      load_users prior (Except.ok us) = (⟨us, us⟩, none)) ∧
    (∀ (prior : SessionState) (e : String),
      (load_users prior (Except.error e)).1.allUsers = [] ∧
      (load_users prior (Except.error e)).1.filteredUsers = [] ∧
      (load_users prior (Except.error e)).2 = some e) :=
  ⟨fun _ _ => rfl, fun _ _ => ⟨rfl, rfl, rfl⟩⟩

/-- Mutating call issued to the provider by a workflow. -/
inductive ProviderCall where
  | setPassword (uid pw : String)
  | setDisplayName (uid name : String)
deriving DecidableEq

/-- Reason a locally entered password pair is rejected. -/
inductive ValidationIssue where
  | mismatch
  | tooShort
deriving DecidableEq

/-- Outcome of one pass through the password-update workflow. -/
inductive PwOutcome where
  | cancelled
  | unknownUidRetry
  | validationFailed (issue : ValidationIssue)
  | committed
  | mutationFailedRetry
deriving DecidableEq

/-- Outcome of one pass through the display-name-update workflow. -/
inductive NameOutcome where
  | cancelled
  | unknownUidRetry
  | committed
  | mutationFailedRetry
deriving DecidableEq

/-- One pass through the body of update_user_password in
cli_interface.py, with the operator's inputs as parameters: the uid
entered at the target prompt, the answer to the confirmation gate, the
new password and its confirmation, and the provider's answer to the
update call. The second component lists the provider calls made. -/
def update_user_password_step (users : List UserRecord) (uidInput : String)
    (confirmed : Bool) (newPassword confirmPassword : String) (providerOk : Bool) :
    PwOutcome × List ProviderCall :=
  if pyLower uidInput = "back" then (PwOutcome.cancelled, [])
  else
    match users.find? (fun u => u.uid == uidInput) with
    | none => (PwOutcome.unknownUidRetry, [])
    | some _ =>
      if confirmed then
        if pyLower newPassword = "back" then (PwOutcome.cancelled, [])
        else if pyLower confirmPassword = "back" then (PwOutcome.cancelled, [])
        else if newPassword ≠ confirmPassword then
          (PwOutcome.validationFailed ValidationIssue.mismatch, [])
        else if newPassword.length < 8 then
          (PwOutcome.validationFailed ValidationIssue.tooShort, [])
        else if providerOk then
          (PwOutcome.committed, [ProviderCall.setPassword uidInput newPassword])
        else
          (PwOutcome.mutationFailedRetry, [ProviderCall.setPassword uidInput newPassword])
      else (PwOutcome.cancelled, [])

/-- One pass through the body of update_user_name in cli_interface.py,
same conventions as for the password workflow. -/
def update_user_name_step (users : List UserRecord) (uidInput : String)
    (confirmed : Bool) (newName : String) (providerOk : Bool) :
    NameOutcome × List ProviderCall :=
  if pyLower uidInput = "back" then (NameOutcome.cancelled, [])
  else
    match users.find? (fun u => u.uid == uidInput) with
    | none => (NameOutcome.unknownUidRetry, [])
    | some _ =>
      if confirmed then
        if pyLower newName = "back" then (NameOutcome.cancelled, [])
        else if providerOk then
          (NameOutcome.committed, [ProviderCall.setDisplayName uidInput newName])
        else
          (NameOutcome.mutationFailedRetry, [ProviderCall.setDisplayName uidInput newName])
      else (NameOutcome.cancelled, [])

/-- C3: with a resolved target and a given confirmation, a mismatched
confirmation value is rejected as a mismatch validation failure (even at
length 8) with no provider call, a matching but short password is
rejected as a too-short validation failure with no provider call, and a
provider call is made only when the two values are equal and at least 8
characters long. -/
theorem password_validation_local (users : List UserRecord) (uidInput : String)
    (newPassword confirmPassword : String) (providerOk : Bool)
    (hfound : (users.find? (fun u => u.uid == uidInput)).isSome = true)
    (hbu : pyLower uidInput ≠ "back")
    (hbn : pyLower newPassword ≠ "back")
    (hbc : pyLower confirmPassword ≠ "back") :
    (newPassword ≠ confirmPassword →
      update_user_password_step users uidInput true newPassword confirmPassword providerOk =
        (PwOutcome.validationFailed ValidationIssue.mismatch, [])) ∧
    (newPassword = confirmPassword → newPassword.length < 8 →
      update_user_password_step users uidInput true newPassword confirmPassword providerOk =
        (PwOutcome.validationFailed ValidationIssue.tooShort, [])) ∧
    (∀ (o : PwOutcome) (calls : List ProviderCall),
      update_user_password_step users uidInput true newPassword confirmPassword providerOk =
        (o, calls) →
      calls ≠ [] →
      newPassword = confirmPassword ∧ 8 ≤ newPassword.length ∧
        calls = [ProviderCall.setPassword uidInput newPassword]) := by
  obtain ⟨u, hf⟩ := Option.isSome_iff_exists.mp hfound
  refine ⟨?_, ?_, ?_⟩
  · intro hne
    simp [update_user_password_step, hbu, hf, hbn, hbc, hne]
  · intro heq hlen
    subst heq
    simp [update_user_password_step, hbu, hf, hbn, hlen]
  · intro o calls hstep hcalls
    by_cases heq : newPassword = confirmPassword
    · subst heq
      by_cases hlen : newPassword.length < 8
      · simp [update_user_password_step, hbu, hf, hbn, hlen] at hstep
        exact absurd hstep.2 hcalls
      · refine ⟨rfl, Nat.le_of_not_lt hlen, ?_⟩
        cases providerOk <;>
          · simp [update_user_password_step, hbu, hf, hbn, hlen] at hstep
            exact hstep.2.symm
    · simp [update_user_password_step, hbu, hf, hbn, hbc, heq] at hstep
      exact absurd hstep.2 hcalls

/-- Witness for C3: a length-8 mismatch pair yields the mismatch
validation failure with no provider call. -/
theorem password_validation_local_witness :
    update_user_password_step [alice] "uid-1" true "Abc12345" "Abc12346" true =
      (PwOutcome.validationFailed ValidationIssue.mismatch, []) :=
  (password_validation_local [alice] "uid-1" "Abc12345" "Abc12346" true
    (by decide) (by decide) (by decide) (by decide)).1 (by decide)

/-- C8: entering the cancellation keyword at the target prompt cancels
either workflow with no provider call; with the confirmation gate
declined no provider call is ever made, and for a resolved target the
declined gate ends the pass as cancelled with no calls. -/
theorem workflow_cancellation_no_calls (users : List UserRecord) (uidInput : String)
    (confirmed : Bool) (newPassword confirmPassword newName : String) (providerOk : Bool) :
    (pyLower uidInput = "back" →
      update_user_password_step users uidInput confirmed newPassword confirmPassword providerOk =
        (PwOutcome.cancelled, []) ∧
      update_user_name_step users uidInput confirmed newName providerOk =
        (NameOutcome.cancelled, [])) ∧
    ((update_user_password_step users uidInput false newPassword confirmPassword providerOk).2 = [] ∧
     (update_user_name_step users uidInput false newName providerOk).2 = []) ∧
    (∀ u : UserRecord, users.find? (fun v => v.uid == uidInput) = some u →
      update_user_password_step users uidInput false newPassword confirmPassword providerOk =
        (PwOutcome.cancelled, []) ∧
      update_user_name_step users uidInput false newName providerOk =
        (NameOutcome.cancelled, [])) := by
  refine ⟨?_, ?_, ?_⟩
  · intro hb
    constructor <;> simp [update_user_password_step, update_user_name_step, hb]
  · by_cases hb : pyLower uidInput = "back"
    · constructor <;> simp [update_user_password_step, update_user_name_step, hb]
    · cases hf : users.find? (fun v => v.uid == uidInput) <;>
        constructor <;> simp [update_user_password_step, update_user_name_step, hb, hf]
  · intro u hf
    by_cases hb : pyLower uidInput = "back"
    · constructor <;> simp [update_user_password_step, update_user_name_step, hb]
    · constructor <;> simp [update_user_password_step, update_user_name_step, hb, hf]

/-- Witness for C8: the cancellation keyword and the declined gate at
concrete inputs. -/
theorem workflow_cancellation_no_calls_witness :
    (update_user_password_step [alice] "BACK" true "p1" "p2" true =
        (PwOutcome.cancelled, []) ∧
     update_user_name_step [alice] "BACK" true "n" true =
        (NameOutcome.cancelled, [])) ∧
    (update_user_password_step [alice] "uid-1" false "p1" "p2" true =
        (PwOutcome.cancelled, []) ∧
     update_user_name_step [alice] "uid-1" false "n" true =
        (NameOutcome.cancelled, [])) :=
  ⟨(workflow_cancellation_no_calls [alice] "BACK" true "p1" "p2" "n" true).1 (by decide),
   (workflow_cancellation_no_calls [alice] "uid-1" false "p1" "p2" "n" true).2.2
     alice (by decide)⟩

/-- Special-character set used by show_password_strength. -/
def special_chars : List Char := "!@#$%^&*()_+-=[]\x7b\x7d|;:,.<>?".data

/-- Integer strength score computed by show_password_strength: one point
per satisfied criterion among the two length thresholds and the four
character classes. -/
def strength_score (password : String) : Nat :=
  (if password.length ≥ 8 then 1 else 0) +
  (if password.length ≥ 12 then 1 else 0) +
  (if password.data.any Char.isUpper then 1 else 0) +
  (if password.data.any Char.isLower then 1 else 0) +
  (if password.data.any Char.isDigit then 1 else 0) +
  (if password.data.any (fun c => special_chars.contains c) then 1 else 0)

/-- Display levels used by show_password_strength. -/
def strength_levels : List String := ["Weak", "Medium", "Strong"]

/-- Displayed bucket: `strength_levels[min(strength_score // 2, 2)]`. -/
def strength_bucket (password : String) : String :=
  strength_levels.getD (min (strength_score password / 2) 2) ""

/-- C9: the strength score counts the satisfied criteria (hence is at
most 6), the bucket is a function of `score / 2` alone, the password
"abc" satisfies only the lowercase criterion (score 1) and buckets as
Weak, and "Abc12345!" buckets as Strong. -/
theorem strength_score_and_bucket :
    (∀ pw : String, strength_score pw ≤ 6) ∧
    (∀ pw1 pw2 : String,
      strength_score pw1 / 2 = strength_score pw2 / 2 →
      strength_bucket pw1 = strength_bucket pw2) ∧
    (strength_score "abc" = 1 ∧ "abc".data.any Char.isLower = true ∧
      "abc".data.any Char.isUpper = false ∧ "abc".data.any Char.isDigit = false ∧
      "abc".data.any (fun c => special_chars.contains c) = false ∧
      ¬ ("abc".length ≥ 8)) ∧
    strength_bucket "abc" = "Weak" ∧
    strength_bucket "Abc12345!" = "Strong" := by
  refine ⟨?_, ?_, ?_, ?_, ?_⟩
  · intro pw
    unfold strength_score
    split <;> split <;> split <;> split <;> split <;> split <;> simp
  · intro pw1 pw2 h
    unfold strength_bucket
    rw [h]
  · exact ⟨by decide, by decide, by decide, by decide, by decide, by decide⟩
  · decide
  · decide

/-- Witness for C9: the bucket agrees on two passwords with the same
halved score. -/
theorem strength_score_and_bucket_witness :
    strength_bucket "abc" = strength_bucket "abcd" :=
  strength_score_and_bucket.2.1 "abc" "abcd" (by decide)

/-- C10 helper: pyOr of an absent (falsy) optional field is the default
sentinel. -/
theorem pyOr_absent (v : Option String) (d : String)
    (hv : v = none ∨ v = some "") : pyOr v d = d := by
  rcases hv with h | h <;> simp [pyOr, h]

/-- C10: the sentinel strings take part in filtering like real data: a
non-blank query whose lowercasing is contained in "no email" matches
every cached record whose raw email was absent, and a query contained in
"no name" matches every record whose raw display name was absent. -/
theorem sentinel_filter_matching (query : String) (raws : List RawUser) (raw : RawUser)
    (hq : pyStripEmpty query = false)
    (hmem : raw ∈ raws) :
    (pyIn (pyLower query) "no email" = true →
      (raw.email = none ∨ raw.email = some "") →
      normalizeUser raw ∈ search_users query (raws.map normalizeUser)) ∧
    (pyIn (pyLower query) "no name" = true →
      (raw.display_name = none ∨ raw.display_name = some "") →
      normalizeUser raw ∈ search_users query (raws.map normalizeUser)) := by
  rw [search_users, if_neg (by simp [hq]), searchLoop_eq_filter]
  constructor
  · intro hinf habs
    rw [List.mem_filter]
    refine ⟨List.mem_map_of_mem normalizeUser hmem, ?_⟩
    have he : (normalizeUser raw).email = "No email" := pyOr_absent raw.email _ habs
    rw [he]
    have hl : pyLower "No email" = "no email" := by decide
    rw [hl, hinf, Bool.true_or]
  · intro hinf habs
    rw [List.mem_filter]
    refine ⟨List.mem_map_of_mem normalizeUser hmem, ?_⟩
    have hn : (normalizeUser raw).display_name = "No name" := pyOr_absent raw.display_name _ habs
    rw [hn]
    have hl : pyLower "No name" = "no name" := by decide
    rw [hl, hinf, Bool.or_true]

def carolRaw : RawUser := ⟨"uid-9", none, none, false, false, 7, none⟩

/-- Witness for C10: the queries "no email" and "no name" match a record
with both raw fields absent. -/
theorem sentinel_filter_matching_witness :
    normalizeUser carolRaw ∈ search_users "no email" ([carolRaw].map normalizeUser) ∧
    normalizeUser carolRaw ∈ search_users "No Name" ([carolRaw].map normalizeUser) :=
  ⟨(sentinel_filter_matching "no email" [carolRaw] carolRaw (by decide)
      (List.mem_singleton.mpr rfl)).1 (by decide) (Or.inl rfl),
   (sentinel_filter_matching "No Name" [carolRaw] carolRaw (by decide)
      (List.mem_singleton.mpr rfl)).2 (by decide) (Or.inl rfl)⟩

end FirebaseApp
